import Mathlib

/-!
Verification development for the `onvif_ptz` Home Assistant custom integration
(`custom_components/onvif_ptz`).  The Python source is shallowly embedded:

* the data model of `models.py` becomes Lean structures;
* `ONVIFDevice.async_perform_ptz` (device.py) becomes a pure function that
  returns the ordered trace of observable events (network requests issued to
  the camera, suspensions, log diagnostics) together with the way the call
  terminated;
* the discovery/setup path (`async_setup`, `async_check_date_and_time`,
  `async_get_device_info`, `async_get_capabilities`, `async_get_profiles`)
  becomes explicit state passing over an environment that records the outcome
  of each remote SOAP operation.

Remote calls can fail in two distinct ways, mirroring the exception classes
used by the source: `httpx.RequestError` (network-level transport failure)
and `zeep.exceptions.Fault` (protocol-level fault).  PTZ service calls are
wrapped by the onvif library and surface as `ONVIFError` carrying a `reason`
string; the embedding injects those via a `fault` oracle.

`datetime` arithmetic (timezone resolution, subtraction) is delegated to the
Python standard library by the source; the embedding represents a resolved
camera date as its position on the UTC timeline in seconds (a rational), so
that `dt_diff.total_seconds()` becomes plain subtraction.
-/

namespace OnvifPtz

/-- `models.DeviceInfo`: device identity; every field optional, default `None`. -/
structure DeviceInfo where
  manufacturer : Option String
  model : Option String
  fw_version : Option String
  serial_number : Option String
  mac : Option String
deriving Repr, DecidableEq

/-- `models.PTZ`: per-profile motion-space support plus optional preset list
(`presets` defaults to `None` in the dataclass). -/
structure PTZ where
  continuous : Bool
  relative : Bool
  absolute : Bool
  presets : Option (List String)
deriving Repr, DecidableEq

/-- `models.Profile`: an ONVIF media profile snapshot. -/
structure Profile where
  index : Nat
  token : String
  name : String
  ptz : Option PTZ
deriving Repr, DecidableEq

/-- `models.Capabilities`: single `ptz` boolean. -/
structure Capabilities where
  ptz : Bool
deriving Repr, DecidableEq

/-! Constants from `const.py`. -/

def CONTINUOUS_MOVE : String := "ContinuousMove"

def RELATIVE_MOVE : String := "RelativeMove"

def ABSOLUTE_MOVE : String := "AbsoluteMove"

def GOTOPRESET_MOVE : String := "GotoPreset"

def STOP_MOVE : String := "Stop"

/-- `PAN_FACTOR.get(pan, 0)` with `PAN_FACTOR = {"RIGHT": 1, "LEFT": -1}`. -/
def PAN_FACTOR_get (d : Option String) : Int :=
  if d = some "RIGHT" then 1 else if d = some "LEFT" then -1 else 0

/-- `TILT_FACTOR.get(tilt, 0)` with `TILT_FACTOR = {"UP": 1, "DOWN": -1}`. -/
def TILT_FACTOR_get (d : Option String) : Int :=
  if d = some "UP" then 1 else if d = some "DOWN" then -1 else 0

/-- `ZOOM_FACTOR.get(zoom, 0)` with `ZOOM_FACTOR = {"ZOOM_IN": 1, "ZOOM_OUT": -1}`. -/
def ZOOM_FACTOR_get (d : Option String) : Int :=
  if d = some "ZOOM_IN" then 1 else if d = some "ZOOM_OUT" then -1 else 0

/-- Whether the first character list is an initial segment of the second. -/
def charsPre : List Char → List Char → Bool
  | [], _ => true
  | _ :: _, [] => false
  | a :: as, b :: bs => a == b && charsPre as bs

/-- Whether `n` occurs as a contiguous segment of the second list. -/
def pyContainsAux (n : List Char) : List Char → Bool
  | [] => charsPre n []
  | c :: rest => charsPre n (c :: rest) || pyContainsAux n rest

/-- Python `needle in hay` on strings: substring occurrence. -/
def pyContains (needle hay : String) : Bool :=
  pyContainsAux needle.data hay.data

/-- The `Velocity` payload of a ContinuousMove request: the source builds a
dict and only inserts the `PanTilt` and `Zoom` entries conditionally. -/
structure Velocity where
  panTilt : Option (ℚ × ℚ)
  zoom : Option ℚ
deriving Repr, DecidableEq

/-- A pan/tilt + zoom vector as used by `Translation`, `Position` and `Speed`
payloads, which always carry both entries. -/
structure PTZVec where
  panTilt : ℚ × ℚ
  zoom : ℚ
deriving Repr, DecidableEq

/-- The network requests `async_perform_ptz` can issue to the PTZ service.
The `stop` flags are `Option Bool` because the timed stop sets them
explicitly while the `Stop` move mode sends a request carrying only the
profile token. -/
inductive PTZReq where
  | continuousMove (profileToken : String) (velocity : Velocity)
  | stop (profileToken : String) (panTilt : Option Bool) (zoom : Option Bool)
  | relativeMove (profileToken : String) (translation : PTZVec) (speed : PTZVec)
  | absoluteMove (profileToken : String) (position : PTZVec) (speed : PTZVec)
  | gotoPreset (profileToken : String) (presetToken : Option String) (speed : PTZVec)
deriving Repr, DecidableEq

/-- Observable events of one `async_perform_ptz` call, in order: network
requests issued, `asyncio.sleep` suspensions, and log diagnostics. -/
inductive Event where
  | call (r : PTZReq)
  | sleep (d : ℚ)
  | logWarn (m : String)
  | logError (m : String)
deriving Repr, DecidableEq

/-- How the coroutine terminated: normal return, or an uncaught exception. -/
inductive Outcome where
  | ok
  | exn (name : String)
deriving Repr, DecidableEq

/-- The network requests of a trace, in order. -/
def callsOf (tr : List Event) : List PTZReq :=
  tr.filterMap fun e => match e with
    | .call r => some r
    | _ => none

/-- The `except ONVIFError as err` handler at the end of `async_perform_ptz`:
a reason containing "Bad Request" is downgraded to a warning, anything else
is logged as an error; either way the exception is swallowed. -/
def onvifErrorEvents (reason : String) : List Event :=
  if pyContains "Bad Request" reason then
    [Event.logWarn "Device does not support PTZ"]
  else
    [Event.logError "Error trying to perform PTZ action"]

/-- The conditionally-assembled `velocity` dict of the ContinuousMove branch:
`PanTilt` is inserted when `pan is not None or tilt is not None`, `Zoom`
when `zoom is not None`. -/
def velocityOf (pan tilt zoom : Option String) (pan_val tilt_val zoom_val : ℚ) : Velocity :=
  { panTilt := if pan.isSome || tilt.isSome then some (pan_val, tilt_val) else none
    zoom := if zoom.isSome then some zoom_val else none }

/-- The uniform `Speed` payload `{PanTilt: {x: s, y: s}, Zoom: {x: s}}`. -/
def uniformSpeed (speed_val : ℚ) : PTZVec :=
  { panTilt := (speed_val, speed_val), zoom := speed_val }

/-- Python truthiness of `profile.ptz.presets` (`None` or `[]` are falsy). -/
def presetsFalsy (o : Option (List String)) : Bool :=
  match o with
  | none => true
  | some l => l.isEmpty

/-- `preset_val not in profile.ptz.presets`, negated: membership of the
(possibly `None`) preset argument in the preset token list. -/
def presetMem (preset : Option String) (l : List String) : Bool :=
  match preset with
  | some s => l.contains s
  | none => false

/-- Issue one PTZ service call subject to the `fault` oracle: the request is
sent either way; when the oracle reports an `ONVIFError` for it, control
jumps to the `except` handler and the continuation is discarded. -/
def issueCall (fault : PTZReq → Option String) (r : PTZReq)
    (rest : List Event × Outcome) : List Event × Outcome :=
  match fault r with
  | some reason => (Event.call r :: onvifErrorEvents reason, Outcome.ok)
  | none => (Event.call r :: rest.1, rest.2)

/-- `ONVIFDevice.async_perform_ptz` (device.py lines 322-449), embedded as a
pure function from the arguments, the device capabilities and an
`ONVIFError` oracle for the PTZ service calls to the ordered event trace and
the termination outcome.  `continuous_duration` is `Option ℚ` because the
caller may pass `None`; `asyncio.sleep(None)` raises `TypeError`, which the
`except ONVIFError` clause does not catch. -/
def async_perform_ptz (caps : Capabilities) (fault : PTZReq → Option String)
    (profile : Profile) (distance speed : ℚ) (move_mode : String)
    (continuous_duration : Option ℚ) (preset : Option String)
    (pan tilt zoom : Option String) : List Event × Outcome :=
  if !caps.ptz then
    ([Event.logWarn "PTZ actions are not supported on device"], Outcome.ok)
  else
    let pan_val : ℚ := distance * (PAN_FACTOR_get pan : ℚ)
    let tilt_val : ℚ := distance * (TILT_FACTOR_get tilt : ℚ)
    let zoom_val : ℚ := distance * (ZOOM_FACTOR_get zoom : ℚ)
    let speed_val : ℚ := speed
    if move_mode == CONTINUOUS_MOVE then
      match profile.ptz with
      | none => ([Event.logWarn "ContinuousMove not supported on device"], Outcome.ok)
      | some p =>
        if !p.continuous then
          ([Event.logWarn "ContinuousMove not supported on device"], Outcome.ok)
        else
          let cmReq := PTZReq.continuousMove profile.token
            (velocityOf pan tilt zoom pan_val tilt_val zoom_val)
          issueCall fault cmReq <|
            match continuous_duration with
            | none => ([], Outcome.exn "TypeError")
            | some d =>
              let stopReq := PTZReq.stop profile.token (some true) (some false)
              (Event.sleep d :: (issueCall fault stopReq ([], Outcome.ok)).1,
               (issueCall fault stopReq ([], Outcome.ok)).2)
    else if move_mode == RELATIVE_MOVE then
      match profile.ptz with
      | none => ([Event.logWarn "RelativeMove not supported on device"], Outcome.ok)
      | some p =>
        if !p.relative then
          ([Event.logWarn "RelativeMove not supported on device"], Outcome.ok)
        else
          let req := PTZReq.relativeMove profile.token
            { panTilt := (pan_val, tilt_val), zoom := zoom_val }
            (uniformSpeed speed_val)
          issueCall fault req ([], Outcome.ok)
    else if move_mode == ABSOLUTE_MOVE then
      match profile.ptz with
      | none => ([Event.logWarn "AbsoluteMove not supported on device"], Outcome.ok)
      | some p =>
        if !p.absolute then
          ([Event.logWarn "AbsoluteMove not supported on device"], Outcome.ok)
        else
          let req := PTZReq.absoluteMove profile.token
            { panTilt := (pan_val, tilt_val), zoom := zoom_val }
            (uniformSpeed speed_val)
          issueCall fault req ([], Outcome.ok)
    else if move_mode == GOTOPRESET_MOVE then
      match profile.ptz with
      | none => ([Event.logWarn "Absolute Presets not supported on device"], Outcome.ok)
      | some p =>
        if presetsFalsy p.presets then
          ([Event.logWarn "Absolute Presets not supported on device"], Outcome.ok)
        else
          match p.presets with
          | none => ([Event.logWarn "Absolute Presets not supported on device"], Outcome.ok)
          | some presetList =>
            if !presetMem preset presetList then
              ([Event.logWarn "PTZ preset does not exist on device"], Outcome.ok)
            else
              let req := PTZReq.gotoPreset profile.token preset (uniformSpeed speed_val)
              issueCall fault req ([], Outcome.ok)
    else if move_mode == STOP_MOVE then
      issueCall fault (PTZReq.stop profile.token none none) ([], Outcome.ok)
    else
      ([], Outcome.ok)

/-! ## Discovery / setup embedding -/

/-- Outcome of one remote SOAP operation: success, `httpx.RequestError`
(network-level), or `zeep.exceptions.Fault` (protocol-level). -/
inductive NetRes (α : Type) where
  | ok (a : α)
  | requestError (m : String)
  | fault (m : String)
deriving Repr, DecidableEq

/-- An exception escaping a discovery step, as classified by the two
`except` clauses of `async_setup`. -/
inductive Exn where
  | reqErr (m : String)
  | fault (m : String)
deriving Repr, DecidableEq

/-- View a `NetRes` as an `Except`: a raised exception or a value. -/
def NetRes.toExcept {α : Type} : NetRes α → Except Exn α
  | .ok a => Except.ok a
  | .requestError m => Except.error (Exn.reqErr m)
  | .fault m => Except.error (Exn.fault m)

/-- A camera-reported date-time (after the source's `datetime` construction
and timezone resolution), abstracted as seconds on the UTC timeline. -/
structure DevCDate where
  utcSeconds : ℚ
deriving Repr, DecidableEq

/-- The `GetSystemDateAndTime` response body: optional `UTCDateTime`,
optional `LocalDateTime`, and the `DateTimeType` string ("Manual" or
"NTP"). -/
structure DeviceTime where
  utcDateTime : Option DevCDate
  localDateTime : Option DevCDate
  dateTimeType : String
deriving Repr, DecidableEq

/-- One network interface from `GetNetworkInterfaces`. -/
structure NetworkInterface where
  enabled : Bool
  hwAddress : String
deriving Repr, DecidableEq

/-- The `GetDeviceInformation` response body. -/
structure DeviceInfoRaw where
  manufacturer : String
  model : String
  firmwareVersion : String
  serialNumber : String
deriving Repr, DecidableEq

/-- A raw `PTZConfiguration` on a media profile: the three default
motion-space descriptors whose presence signals support. -/
structure RawPTZConfig where
  defaultContinuousPanTiltVelocitySpace : Option String
  defaultRelativePanTiltTranslationSpace : Option String
  defaultAbsolutePantTiltPositionSpace : Option String
deriving Repr, DecidableEq

/-- A raw media profile from `GetProfiles`. -/
structure RawProfile where
  token : String
  name : String
  ptzConfiguration : Option RawPTZConfig
deriving Repr, DecidableEq

/-- Environment recording the outcome of each remote operation touched
during setup, plus the local UTC clock reading (`dt_util.utcnow()`,
abstracted to seconds).  `getProfiles` yields `none` when the response is
not a list (`isinstance` guard); `getPresets` entries are `Option String`
because the source filters falsy presets (`if preset`); `ptzProbe` is the
`get_definition("ptz")` probe, `none` meaning the definition exists and
`some e` an `ONVIFError`/`Fault`/`RequestError` raised by it. -/
structure SetupEnv where
  systemNowSeconds : ℚ
  xaddrs : NetRes Unit
  getSystemDateAndTime : NetRes (Option DeviceTime)
  getTimeForSet : NetRes Unit
  setTime : NetRes Unit
  getDeviceInformation : NetRes DeviceInfoRaw
  getNetworkInterfaces : NetRes (List NetworkInterface)
  ptzProbe : Option String
  getProfiles : NetRes (Option (List RawProfile))
  getPresets : String → NetRes (List (Option String))

/-- Result of `async_check_date_and_time`: how many `SetSystemDateAndTime`
pushes were issued, the stored `_dt_diff_seconds`, and a protocol fault that
escapes to the caller (`RequestError` is caught inside the method). -/
structure CheckResult where
  pushes : Nat
  dtDiff : Option ℚ
  escFault : Option String
deriving Repr, DecidableEq

/-- `cdate = device_time.LocalDateTime`, overridden by `UTCDateTime` when
present (the source also picks the timezone accordingly; that resolution is
folded into `DevCDate.utcSeconds`). -/
def resolveCDate (t : DeviceTime) : Option DevCDate :=
  match t.utcDateTime with
  | some c => some c
  | none => t.localDateTime

/-- `ONVIFDevice.async_check_date_and_time` (device.py lines 173-242)
composed with `async_manually_set_date_and_time` (lines 147-171): query the
device clock, compare against local UTC, and push a correction only when the
drift exceeds 5 seconds and the device clock is set manually.  A
`RequestError` anywhere in the `try` block is caught and logged; a `Fault`
escapes. -/
def async_check_date_and_time (env : SetupEnv) : CheckResult :=
  match env.getSystemDateAndTime with
  | .requestError _ => { pushes := 0, dtDiff := none, escFault := none }
  | .fault m => { pushes := 0, dtDiff := none, escFault := some m }
  | .ok none => { pushes := 0, dtDiff := none, escFault := none }
  | .ok (some dtv) =>
    match resolveCDate dtv with
    | none => { pushes := 0, dtDiff := none, escFault := none }
    | some c =>
      let diff := c.utcSeconds - env.systemNowSeconds
      if diff > 5 then
        if dtv.dateTimeType = "Manual" then
          match env.getTimeForSet with
          | .requestError _ => { pushes := 0, dtDiff := some diff, escFault := none }
          | .fault m => { pushes := 0, dtDiff := some diff, escFault := some m }
          | .ok _ =>
            match env.setTime with
            | .requestError _ => { pushes := 1, dtDiff := some diff, escFault := none }
            | .fault m => { pushes := 1, dtDiff := some diff, escFault := some m }
            | .ok _ => { pushes := 1, dtDiff := some diff, escFault := none }
        else { pushes := 0, dtDiff := some diff, escFault := none }
      else { pushes := 0, dtDiff := some diff, escFault := none }

/-- `ONVIFDevice.async_get_device_info` (device.py lines 244-272): MAC
lookup swallows only a `Fault` whose message contains "not implemented"
(degrading to `mac = None`); any other `Fault` is re-raised and a
`RequestError` is not caught at all. -/
def async_get_device_info (env : SetupEnv) : Except Exn DeviceInfo :=
  match env.getDeviceInformation with
  | .requestError m => Except.error (Exn.reqErr m)
  | .fault m => Except.error (Exn.fault m)
  | .ok di =>
    match env.getNetworkInterfaces with
    | .requestError m => Except.error (Exn.reqErr m)
    | .fault m =>
      if pyContains "not implemented" m then
        Except.ok
          { manufacturer := some di.manufacturer, model := some di.model,
            fw_version := some di.firmwareVersion,
            serial_number := some di.serialNumber, mac := none }
      else
        Except.error (Exn.fault m)
    | .ok ifaces =>
      let mac := ifaces.foldl
        (fun acc i => if i.enabled then some i.hwAddress else acc) none
      Except.ok
        { manufacturer := some di.manufacturer, model := some di.model,
          fw_version := some di.firmwareVersion,
          serial_number := some di.serialNumber, mac := mac }

/-- `ONVIFDevice.async_get_capabilities` (device.py lines 274-281): the PTZ
probe sits inside `suppress(ONVIFError, Fault, RequestError)`, so any
failure degrades to `ptz = False` and nothing escapes. -/
def async_get_capabilities (env : SetupEnv) : Capabilities :=
  { ptz := env.ptzProbe.isNone }

/-- Build one `Profile` record (device.py lines 292-318): PTZ support comes
from the presence of the three default motion-space descriptors, gated on
`capabilities.ptz`; the per-profile preset listing swallows `Fault` and
`RequestError`, degrading to an empty preset list. -/
def buildProfile (env : SetupEnv) (caps : Capabilities) (k : Nat)
    (raw : RawProfile) : Profile :=
  let base : Profile := { index := k, token := raw.token, name := raw.name, ptz := none }
  match raw.ptzConfiguration with
  | none => base
  | some cfg =>
    if caps.ptz then
      let ptzBase : PTZ :=
        { continuous := cfg.defaultContinuousPanTiltVelocitySpace.isSome
          relative := cfg.defaultRelativePanTiltTranslationSpace.isSome
          absolute := cfg.defaultAbsolutePantTiltPositionSpace.isSome
          presets := none }
      let presetTokens :=
        match env.getPresets raw.token with
        | .ok ps => ps.filterMap id
        | .requestError _ => []
        | .fault _ => []
      { base with ptz := some { ptzBase with presets := some presetTokens } }
    else base

/-- `ONVIFDevice.async_get_profiles` (device.py lines 283-320): a non-list
`GetProfiles` response yields an empty profile list; otherwise each raw
profile is converted in order, index = position. -/
def async_get_profiles (env : SetupEnv) (caps : Capabilities) :
    Except Exn (List Profile) :=
  match env.getProfiles with
  | .requestError m => Except.error (Exn.reqErr m)
  | .fault m => Except.error (Exn.fault m)
  | .ok none => Except.ok []
  | .ok (some raws) =>
    Except.ok (raws.enum.map fun kr => buildProfile env caps kr.1 kr.2)

/-- The transport session handle (`ONVIFCamera`).  Modelled from the spec:
the transport collaborator can "close the session on demand"; `closed`
records whether `close()` has been called. -/
structure Conn where
  closed : Bool
deriving Repr, DecidableEq

/-- Modelled from the spec: the transport collaborator's close operation
releases the session.  (`ONVIFCamera.close` lives in the external `onvif`
library, outside this repository.) -/
def closeConn (_ : Conn) : Conn :=
  { closed := true }

/-- The mutable attributes of `ONVIFDevice`.  `device` is `Option Conn`
because the class body only carries the annotation `device: ONVIFCamera`;
the attribute is first assigned at the top of `async_setup`, and reading it
before that raises `AttributeError`. -/
structure DeviceState where
  device : Option Conn
  available : Bool
  info : DeviceInfo
  capabilities : Capabilities
  profiles : List Profile
  max_resolution : Nat
  dt_diff_seconds : ℚ
deriving Repr, DecidableEq

/-- `ONVIFDevice.__init__` (device.py lines 46-57). -/
def initDeviceState : DeviceState :=
  { device := none
    available := true
    info := { manufacturer := none, model := none, fw_version := none,
              serial_number := none, mac := none }
    capabilities := { ptz := false }
    profiles := []
    max_resolution := 0
    dt_diff_seconds := 0 }

/-- How `async_setup` terminated: `success` (`return True`), `failure`
(`return False`), or an uncaught exception escaping the coroutine. -/
inductive SetupResult where
  | success
  | failure
  | exn (name : String)
deriving Repr, DecidableEq

/-- The two `except` clauses of `async_setup` (device.py lines 122-139):
`RequestError` marks the device unavailable, closes the transport and lets
the function fall through to `return True`; `Fault` makes it `return
False`. -/
def setupHandle (s : DeviceState) (e : Exn) : DeviceState × SetupResult :=
  match e with
  | .reqErr _ =>
    ({ s with available := false, device := s.device.map closeConn },
     SetupResult.success)
  | .fault _ => (s, SetupResult.failure)

/-- `max(profile.video.resolution.width for profile in profiles if
profile.video.encoding == "H264")` (device.py lines 117-121).  The
`models.Profile` dataclass has no `video` attribute, so evaluating the
generator's first element raises `AttributeError` whenever the profile list
is non-empty (and `max` raises `ValueError` on an empty list, though that
point is only reached with a non-empty list). -/
def maxResolutionStep (profiles : List Profile) : SetupResult :=
  match profiles with
  | [] => SetupResult.exn "ValueError"
  | _ :: _ => SetupResult.exn "AttributeError"

/-- `ONVIFDevice.async_setup` (device.py lines 84-141), threading the
attribute assignments in source order so that a failure observed mid-way
leaves exactly the attributes written so far. -/
def async_setup (env : SetupEnv) (s0 : DeviceState) : DeviceState × SetupResult :=
  let s := { s0 with device := some { closed := false } }
  match (env.xaddrs).toExcept with
  | .error e => setupHandle s e
  | .ok _ =>
    let chk := async_check_date_and_time env
    match chk.escFault with
    | some m =>
      setupHandle { s with dt_diff_seconds := chk.dtDiff.getD s.dt_diff_seconds }
        (Exn.fault m)
    | none =>
      let s := { s with dt_diff_seconds := chk.dtDiff.getD s.dt_diff_seconds }
      match async_get_device_info env with
      | .error e => setupHandle s e
      | .ok info =>
        let s := { s with info := info }
        let caps := async_get_capabilities env
        let s := { s with capabilities := caps }
        match async_get_profiles env caps with
        | .error e => setupHandle s e
        | .ok profiles =>
          let s := { s with profiles := profiles }
          if profiles.isEmpty then (s, SetupResult.failure)
          else (s, maxResolutionStep profiles)

/-- The first exception escaping the `try` block of `async_setup`, mirroring
its sequencing; `none` when every step succeeds. -/
def discoveryExn (env : SetupEnv) : Option Exn :=
  match (env.xaddrs).toExcept with
  | .error e => some e
  | .ok _ =>
    match (async_check_date_and_time env).escFault with
    | some m => some (Exn.fault m)
    | none =>
      match async_get_device_info env with
      | .error e => some e
      | .ok _ =>
        match async_get_profiles env (async_get_capabilities env) with
        | .error e => some e
        | .ok _ => none

/-- `ONVIFDevice.async_stop` (device.py lines 143-145): `await
self.device.close()`.  Reading `self.device` before `async_setup` ever ran
raises `AttributeError`. -/
def async_stop (s : DeviceState) : Except String DeviceState :=
  match s.device with
  | none => Except.error "AttributeError"
  | some c => Except.ok { s with device := some (closeConn c) }

/-! ## Helper definitions for the theorems -/

/-- The ContinuousMove request built by the continuous branch. -/
def cmReqOf (profile : Profile) (distance : ℚ) (pan tilt zoom : Option String) : PTZReq :=
  PTZReq.continuousMove profile.token
    (velocityOf pan tilt zoom
      (distance * (PAN_FACTOR_get pan : ℚ))
      (distance * (TILT_FACTOR_get tilt : ℚ))
      (distance * (ZOOM_FACTOR_get zoom : ℚ)))

/-- The Stop request issued after a timed continuous move. -/
def timedStopReq (profile : Profile) : PTZReq :=
  PTZReq.stop profile.token (some true) (some false)

/-- A silent no-op observation: no network request, at least one warning
diagnostic, normal return. -/
def silentNoop (r : List Event × Outcome) : Prop :=
  callsOf r.1 = [] ∧ (∃ m, Event.logWarn m ∈ r.1) ∧ r.2 = Outcome.ok

/-- Continuous support as the guard reads it. -/
def continuousSupported (profile : Profile) : Bool :=
  match profile.ptz with
  | none => false
  | some p => p.continuous

/-- Relative support as the guard reads it. -/
def relativeSupported (profile : Profile) : Bool :=
  match profile.ptz with
  | none => false
  | some p => p.relative

/-- Absolute support as the guard reads it. -/
def absoluteSupported (profile : Profile) : Bool :=
  match profile.ptz with
  | none => false
  | some p => p.absolute

/-- GotoPreset admissibility as the two guards read it: a non-empty preset
list that contains the requested token. -/
def gotoPresetAllowed (profile : Profile) (preset : Option String) : Bool :=
  match profile.ptz with
  | none => false
  | some p =>
    match p.presets with
    | none => false
    | some l => !l.isEmpty && presetMem preset l

/-- Fault oracle that never faults. -/
def noFaults : PTZReq → Option String := fun _ => none

/-- PTZ-capable test capabilities. -/
def capsOn : Capabilities := { ptz := true }

/-- A profile supporting every motion space, with one preset. -/
def testProfileC : Profile :=
  { index := 0, token := "profA", name := "main",
    ptz := some { continuous := true, relative := true, absolute := true,
                  presets := some ["p1"] } }

@[simp]
theorem PAN_FACTOR_get_right : PAN_FACTOR_get (some "RIGHT") = 1 := by decide

@[simp]
theorem TILT_FACTOR_get_none : TILT_FACTOR_get none = 0 := by decide

@[simp]
theorem ZOOM_FACTOR_get_none : ZOOM_FACTOR_get none = 0 := by decide

@[simp]
theorem callsOf_nil : callsOf [] = [] := rfl

@[simp]
theorem callsOf_cons_call (r : PTZReq) (tr : List Event) :
    callsOf (Event.call r :: tr) = r :: callsOf tr := rfl

@[simp]
theorem callsOf_cons_sleep (d : ℚ) (tr : List Event) :
    callsOf (Event.sleep d :: tr) = callsOf tr := rfl

@[simp]
theorem callsOf_cons_warn (m : String) (tr : List Event) :
    callsOf (Event.logWarn m :: tr) = callsOf tr := rfl

@[simp]
theorem callsOf_cons_logError (m : String) (tr : List Event) :
    callsOf (Event.logError m :: tr) = callsOf tr := rfl

@[simp]
theorem callsOf_onvifErrorEvents (r : String) :
    callsOf (onvifErrorEvents r) = [] := by
  unfold onvifErrorEvents
  split <;> rfl

/-- The continuous branch of `async_perform_ptz`, in closed form. -/
theorem perform_continuous_eq (caps : Capabilities) (fault : PTZReq → Option String)
    (profile : Profile) (distance speed : ℚ) (dur : Option ℚ)
    (preset : Option String) (pan tilt zoom : Option String) (p : PTZ)
    (hcap : caps.ptz = true) (hp : profile.ptz = some p)
    (hcont : p.continuous = true) :
    async_perform_ptz caps fault profile distance speed CONTINUOUS_MOVE dur
      preset pan tilt zoom
      = issueCall fault (cmReqOf profile distance pan tilt zoom)
          (match dur with
           | none => ([], Outcome.exn "TypeError")
           | some d =>
             (Event.sleep d :: (issueCall fault (timedStopReq profile) ([], Outcome.ok)).1,
              (issueCall fault (timedStopReq profile) ([], Outcome.ok)).2)) := by
  unfold async_perform_ptz
  simp [hcap, hp, hcont, cmReqOf, timedStopReq]

/-! ## Claims about `async_perform_ptz` -/

/-- C1: on a profile advertising continuous support, a continuous-move
command with timeout T issues exactly one ContinuousMove request, then
suspends for exactly T seconds, then issues exactly one Stop request for the
same profile token; if the ContinuousMove call itself faults, no Stop
request is ever issued. -/
theorem c1_timed_continuous_move (caps : Capabilities)
    (fault : PTZReq → Option String) (profile : Profile)
    (distance speed T : ℚ) (preset : Option String)
    (pan tilt zoom : Option String) (p : PTZ)
    (hcap : caps.ptz = true) (hp : profile.ptz = some p)
    (hcont : p.continuous = true) :
    (fault (cmReqOf profile distance pan tilt zoom) = none →
      callsOf (async_perform_ptz caps fault profile distance speed
          CONTINUOUS_MOVE (some T) preset pan tilt zoom).1
        = [cmReqOf profile distance pan tilt zoom, timedStopReq profile]
      ∧ (async_perform_ptz caps fault profile distance speed CONTINUOUS_MOVE
          (some T) preset pan tilt zoom).1.take 3
        = [Event.call (cmReqOf profile distance pan tilt zoom),
           Event.sleep T, Event.call (timedStopReq profile)])
    ∧ (∀ r, fault (cmReqOf profile distance pan tilt zoom) = some r →
      callsOf (async_perform_ptz caps fault profile distance speed
          CONTINUOUS_MOVE (some T) preset pan tilt zoom).1
        = [cmReqOf profile distance pan tilt zoom]
      ∧ ∀ tk pb zb, PTZReq.stop tk pb zb ∉
          callsOf (async_perform_ptz caps fault profile distance speed
            CONTINUOUS_MOVE (some T) preset pan tilt zoom).1) := by
  rw [perform_continuous_eq caps fault profile distance speed (some T) preset
    pan tilt zoom p hcap hp hcont]
  constructor
  · intro hf
    unfold issueCall
    rw [hf]
    cases hs : fault (timedStopReq profile) <;>
      simp [issueCall, hs]
  · intro r hf
    unfold issueCall
    rw [hf]
    refine ⟨by simp, ?_⟩
    intro tk pb zb
    simp [cmReqOf]

/-- Witness for C1 at a concrete input: continuous pan-right at distance 1
for 3 seconds on a continuous-capable profile, no faults. -/
theorem c1_witness :
    callsOf (async_perform_ptz capsOn noFaults testProfileC 1 1
        CONTINUOUS_MOVE (some 3) none (some "RIGHT") none none).1
      = [cmReqOf testProfileC 1 (some "RIGHT") none none, timedStopReq testProfileC]
    ∧ (async_perform_ptz capsOn noFaults testProfileC 1 1 CONTINUOUS_MOVE
        (some 3) none (some "RIGHT") none none).1.take 3
      = [Event.call (cmReqOf testProfileC 1 (some "RIGHT") none none),
         Event.sleep 3, Event.call (timedStopReq testProfileC)] :=
  (c1_timed_continuous_move capsOn noFaults testProfileC 1 1 3 none
    (some "RIGHT") none none
    { continuous := true, relative := true, absolute := true, presets := some ["p1"] }
    rfl rfl rfl).1 rfl

/-- C3 counterexample: on a concrete timed continuous move the Stop request
is issued with the pan-tilt flag `True` but the zoom flag `False`; no Stop
request with both flags true ever appears in the trace, so the claim that
both flags are set to "stop this axis" is false. -/
theorem c3_counterexample :
    callsOf (async_perform_ptz capsOn noFaults testProfileC 1 1
        CONTINUOUS_MOVE (some 3) none (some "RIGHT") none none).1
      = [PTZReq.continuousMove "profA" { panTilt := some (1, 0), zoom := none },
         PTZReq.stop "profA" (some true) (some false)]
    ∧ Event.call (PTZReq.stop "profA" (some true) (some true)) ∉
        (async_perform_ptz capsOn noFaults testProfileC 1 1 CONTINUOUS_MOVE
          (some 3) none (some "RIGHT") none none).1 := by
  rw [perform_continuous_eq capsOn noFaults testProfileC 1 1 (some 3) none
    (some "RIGHT") none none
    { continuous := true, relative := true, absolute := true, presets := some ["p1"] }
    rfl rfl rfl]
  refine ⟨?_, ?_⟩ <;>
    simp [issueCall, noFaults, timedStopReq, cmReqOf, velocityOf, testProfileC]

/-- C3 amended: the Stop request issued after a timed continuous move
carries the same profile token as the initiating ContinuousMove, with the
pan-tilt flag set to true and the zoom flag set to false. -/
theorem c3_amended_stop_flags (caps : Capabilities)
    (fault : PTZReq → Option String) (profile : Profile)
    (distance speed T : ℚ) (preset : Option String)
    (pan tilt zoom : Option String) (p : PTZ)
    (hcap : caps.ptz = true) (hp : profile.ptz = some p)
    (hcont : p.continuous = true)
    (hf : fault (cmReqOf profile distance pan tilt zoom) = none) :
    Event.call (PTZReq.stop profile.token (some true) (some false)) ∈
      (async_perform_ptz caps fault profile distance speed CONTINUOUS_MOVE
        (some T) preset pan tilt zoom).1
    ∧ ∀ tk pb zb, PTZReq.stop tk pb zb ∈
        callsOf (async_perform_ptz caps fault profile distance speed
          CONTINUOUS_MOVE (some T) preset pan tilt zoom).1 →
        tk = profile.token ∧ pb = some true ∧ zb = some false := by
  rw [perform_continuous_eq caps fault profile distance speed (some T) preset
    pan tilt zoom p hcap hp hcont]
  unfold issueCall
  rw [hf]
  constructor
  · cases hs : fault (timedStopReq profile) <;>
      simp [issueCall, hs, timedStopReq]
  · intro tk pb zb hmem
    cases hs : fault (timedStopReq profile) <;>
      rw [hs] at hmem <;>
      simp [issueCall, hs, timedStopReq, cmReqOf] at hmem <;>
      tauto

/-- Witness for the amended C3 at a concrete input. -/
theorem c3_amended_witness :
    Event.call (PTZReq.stop "profA" (some true) (some false)) ∈
      (async_perform_ptz capsOn noFaults testProfileC 1 1 CONTINUOUS_MOVE
        (some 3) none (some "RIGHT") none none).1
    ∧ ∀ tk pb zb, PTZReq.stop tk pb zb ∈
        callsOf (async_perform_ptz capsOn noFaults testProfileC 1 1
          CONTINUOUS_MOVE (some 3) none (some "RIGHT") none none).1 →
        tk = "profA" ∧ pb = some true ∧ zb = some false :=
  c3_amended_stop_flags capsOn noFaults testProfileC 1 1 3 none
    (some "RIGHT") none none
    { continuous := true, relative := true, absolute := true, presets := some ["p1"] }
    rfl rfl rfl rfl

/-- C4 counterexample: with a timeout duration of zero on a
continuous-capable profile, the code still issues a Stop request (after a
zero-length suspension); the claim that no Stop request is issued is
false. -/
theorem c4_counterexample :
    (async_perform_ptz capsOn noFaults testProfileC 1 1 CONTINUOUS_MOVE
        (some 0) none (some "RIGHT") none none).1
      = [Event.call (PTZReq.continuousMove "profA"
            { panTilt := some (1, 0), zoom := none }),
         Event.sleep 0,
         Event.call (PTZReq.stop "profA" (some true) (some false))]
    ∧ Event.call (PTZReq.stop "profA" (some true) (some false)) ∈
        (async_perform_ptz capsOn noFaults testProfileC 1 1 CONTINUOUS_MOVE
          (some 0) none (some "RIGHT") none none).1 := by
  rw [perform_continuous_eq capsOn noFaults testProfileC 1 1 (some 0) none
    (some "RIGHT") none none
    { continuous := true, relative := true, absolute := true, presets := some ["p1"] }
    rfl rfl rfl]
  refine ⟨?_, ?_⟩ <;>
    simp [issueCall, noFaults, timedStopReq, cmReqOf, velocityOf, testProfileC]

/-- C4 amended: with a duration of zero the ContinuousMove is sent and a
Stop request is still issued immediately after a zero-length suspension —
the motion is not left running; with an absent (`None`) duration the move is
sent, no Stop is issued, and the suspension call raises an uncaught
`TypeError`. -/
theorem c4_amended_zero_or_absent_duration (caps : Capabilities)
    (fault : PTZReq → Option String) (profile : Profile)
    (distance speed : ℚ) (preset : Option String)
    (pan tilt zoom : Option String) (p : PTZ)
    (hcap : caps.ptz = true) (hp : profile.ptz = some p)
    (hcont : p.continuous = true)
    (hf : fault (cmReqOf profile distance pan tilt zoom) = none) :
    (fault (timedStopReq profile) = none →
      (async_perform_ptz caps fault profile distance speed CONTINUOUS_MOVE
          (some 0) preset pan tilt zoom).1
        = [Event.call (cmReqOf profile distance pan tilt zoom),
           Event.sleep 0, Event.call (timedStopReq profile)])
    ∧ callsOf (async_perform_ptz caps fault profile distance speed
        CONTINUOUS_MOVE none preset pan tilt zoom).1
      = [cmReqOf profile distance pan tilt zoom]
    ∧ (async_perform_ptz caps fault profile distance speed CONTINUOUS_MOVE
        none preset pan tilt zoom).2 = Outcome.exn "TypeError" := by
  refine ⟨?_, ?_, ?_⟩
  · intro hs
    rw [perform_continuous_eq caps fault profile distance speed (some 0)
      preset pan tilt zoom p hcap hp hcont]
    unfold issueCall
    rw [hf, hs]
  · rw [perform_continuous_eq caps fault profile distance speed none preset
      pan tilt zoom p hcap hp hcont]
    unfold issueCall
    rw [hf]
    simp
  · rw [perform_continuous_eq caps fault profile distance speed none preset
      pan tilt zoom p hcap hp hcont]
    unfold issueCall
    rw [hf]

/-- Witness for the amended C4 at a concrete input. -/
theorem c4_amended_witness :
    (async_perform_ptz capsOn noFaults testProfileC 1 1 CONTINUOUS_MOVE
        (some 0) none (some "RIGHT") none none).1
      = [Event.call (cmReqOf testProfileC 1 (some "RIGHT") none none),
         Event.sleep 0, Event.call (timedStopReq testProfileC)]
    ∧ callsOf (async_perform_ptz capsOn noFaults testProfileC 1 1
        CONTINUOUS_MOVE none none (some "RIGHT") none none).1
      = [cmReqOf testProfileC 1 (some "RIGHT") none none]
    ∧ (async_perform_ptz capsOn noFaults testProfileC 1 1 CONTINUOUS_MOVE
        none none (some "RIGHT") none none).2 = Outcome.exn "TypeError" :=
  have h := c4_amended_zero_or_absent_duration capsOn noFaults testProfileC
    1 1 none (some "RIGHT") none none
    { continuous := true, relative := true, absolute := true, presets := some ["p1"] }
    rfl rfl rfl rfl
  ⟨h.1 rfl, h.2.1, h.2.2⟩

/-- The RelativeMove request built by the relative branch. -/
def relReqOf (profile : Profile) (distance speed : ℚ) (pan tilt zoom : Option String) : PTZReq :=
  PTZReq.relativeMove profile.token
    { panTilt := (distance * (PAN_FACTOR_get pan : ℚ), distance * (TILT_FACTOR_get tilt : ℚ))
      zoom := distance * (ZOOM_FACTOR_get zoom : ℚ) }
    (uniformSpeed speed)

/-- The AbsoluteMove request built by the absolute branch. -/
def absReqOf (profile : Profile) (distance speed : ℚ) (pan tilt zoom : Option String) : PTZReq :=
  PTZReq.absoluteMove profile.token
    { panTilt := (distance * (PAN_FACTOR_get pan : ℚ), distance * (TILT_FACTOR_get tilt : ℚ))
      zoom := distance * (ZOOM_FACTOR_get zoom : ℚ) }
    (uniformSpeed speed)

/-- The relative branch of `async_perform_ptz`, in closed form. -/
theorem perform_relative_eq (caps : Capabilities) (fault : PTZReq → Option String)
    (profile : Profile) (distance speed : ℚ) (dur : Option ℚ)
    (preset : Option String) (pan tilt zoom : Option String) (p : PTZ)
    (hcap : caps.ptz = true) (hp : profile.ptz = some p)
    (hrel : p.relative = true) :
    async_perform_ptz caps fault profile distance speed RELATIVE_MOVE dur
      preset pan tilt zoom
      = issueCall fault (relReqOf profile distance speed pan tilt zoom) ([], Outcome.ok) := by
  unfold async_perform_ptz
  simp [hcap, hp, hrel, relReqOf, RELATIVE_MOVE, CONTINUOUS_MOVE]

/-- The absolute branch of `async_perform_ptz`, in closed form. -/
theorem perform_absolute_eq (caps : Capabilities) (fault : PTZReq → Option String)
    (profile : Profile) (distance speed : ℚ) (dur : Option ℚ)
    (preset : Option String) (pan tilt zoom : Option String) (p : PTZ)
    (hcap : caps.ptz = true) (hp : profile.ptz = some p)
    (habs : p.absolute = true) :
    async_perform_ptz caps fault profile distance speed ABSOLUTE_MOVE dur
      preset pan tilt zoom
      = issueCall fault (absReqOf profile distance speed pan tilt zoom) ([], Outcome.ok) := by
  unfold async_perform_ptz
  simp [hcap, hp, habs, absReqOf, ABSOLUTE_MOVE, RELATIVE_MOVE, CONTINUOUS_MOVE]

/-- C2: a move command whose kind is not advertised by the profile's
motion-space support (or, for GotoPreset, whose preset token is not listed)
performs no network call, emits a diagnostic, and returns normally — a
silent no-op for the caller. -/
theorem c2_unsupported_silent_noop (caps : Capabilities)
    (fault : PTZReq → Option String) (profile : Profile)
    (distance speed : ℚ) (dur : Option ℚ) (preset : Option String)
    (pan tilt zoom : Option String) :
    (continuousSupported profile = false →
      silentNoop (async_perform_ptz caps fault profile distance speed
        CONTINUOUS_MOVE dur preset pan tilt zoom))
    ∧ (relativeSupported profile = false →
      silentNoop (async_perform_ptz caps fault profile distance speed
        RELATIVE_MOVE dur preset pan tilt zoom))
    ∧ (absoluteSupported profile = false →
      silentNoop (async_perform_ptz caps fault profile distance speed
        ABSOLUTE_MOVE dur preset pan tilt zoom))
    ∧ (gotoPresetAllowed profile preset = false →
      silentNoop (async_perform_ptz caps fault profile distance speed
        GOTOPRESET_MOVE dur preset pan tilt zoom)) := by
  refine ⟨?_, ?_, ?_, ?_⟩
  · intro h
    unfold async_perform_ptz
    cases hc : caps.ptz
    · simp [hc, silentNoop]
    · cases hp : profile.ptz with
      | none => simp [hc, hp, silentNoop, CONTINUOUS_MOVE]
      | some p =>
        simp [continuousSupported, hp] at h
        simp [hc, hp, h, silentNoop, CONTINUOUS_MOVE]
  · intro h
    unfold async_perform_ptz
    cases hc : caps.ptz
    · simp [hc, silentNoop]
    · cases hp : profile.ptz with
      | none => simp [hc, hp, silentNoop, CONTINUOUS_MOVE, RELATIVE_MOVE]
      | some p =>
        simp [relativeSupported, hp] at h
        simp [hc, hp, h, silentNoop, CONTINUOUS_MOVE, RELATIVE_MOVE]
  · intro h
    unfold async_perform_ptz
    cases hc : caps.ptz
    · simp [hc, silentNoop]
    · cases hp : profile.ptz with
      | none =>
        simp [hc, hp, silentNoop, CONTINUOUS_MOVE, RELATIVE_MOVE, ABSOLUTE_MOVE]
      | some p =>
        simp [absoluteSupported, hp] at h
        simp [hc, hp, h, silentNoop, CONTINUOUS_MOVE, RELATIVE_MOVE, ABSOLUTE_MOVE]
  · intro h
    unfold async_perform_ptz
    cases hc : caps.ptz
    · simp [hc, silentNoop]
    · cases hp : profile.ptz with
      | none =>
        simp [hc, hp, silentNoop, CONTINUOUS_MOVE, RELATIVE_MOVE, ABSOLUTE_MOVE,
          GOTOPRESET_MOVE]
      | some p =>
        cases hps : p.presets with
        | none =>
          simp [hc, hp, hps, presetsFalsy, silentNoop, CONTINUOUS_MOVE,
            RELATIVE_MOVE, ABSOLUTE_MOVE, GOTOPRESET_MOVE]
        | some l =>
          cases he : l.isEmpty
          · cases hm : presetMem preset l
            · simp [hc, hp, hps, presetsFalsy, he, hm, silentNoop,
                CONTINUOUS_MOVE, RELATIVE_MOVE, ABSOLUTE_MOVE, GOTOPRESET_MOVE]
            · exfalso
              simp [gotoPresetAllowed, hp, hps, he, hm] at h
          · simp [hc, hp, hps, presetsFalsy, he, silentNoop, CONTINUOUS_MOVE,
              RELATIVE_MOVE, ABSOLUTE_MOVE, GOTOPRESET_MOVE]

/-- Witness for C2: a profile with no PTZ configuration at all rejects all
four move kinds silently. -/
theorem c2_witness :
    silentNoop (async_perform_ptz capsOn noFaults
      { index := 0, token := "profB", name := "plain", ptz := none }
      1 1 CONTINUOUS_MOVE (some 1) none none none none)
    ∧ silentNoop (async_perform_ptz capsOn noFaults
      { index := 0, token := "profB", name := "plain", ptz := none }
      1 1 RELATIVE_MOVE (some 1) none none none none)
    ∧ silentNoop (async_perform_ptz capsOn noFaults
      { index := 0, token := "profB", name := "plain", ptz := none }
      1 1 ABSOLUTE_MOVE (some 1) none none none none)
    ∧ silentNoop (async_perform_ptz capsOn noFaults
      { index := 0, token := "profB", name := "plain", ptz := none }
      1 1 GOTOPRESET_MOVE (some 1) none none none none) :=
  have h := c2_unsupported_silent_noop capsOn noFaults
    { index := 0, token := "profB", name := "plain", ptz := none }
    1 1 (some 1) none none none none
  ⟨h.1 rfl, h.2.1 rfl, h.2.2.1 rfl, h.2.2.2 rfl⟩

/-- C10: a validated ContinuousMove carries a PanTilt velocity component
exactly when pan or tilt was specified and a Zoom component exactly when
zoom was specified (an unspecified axis is omitted); validated RelativeMove
and AbsoluteMove payloads always carry both axis components (an unspecified
axis is sent as zero). -/
theorem c10_axis_payload_inclusion (caps : Capabilities)
    (fault : PTZReq → Option String) (profile : Profile)
    (distance speed : ℚ) (dur : Option ℚ) (preset : Option String)
    (pan tilt zoom : Option String) (p : PTZ)
    (hcap : caps.ptz = true) (hp : profile.ptz = some p) :
    (p.continuous = true →
      ∀ tk v, PTZReq.continuousMove tk v ∈
          callsOf (async_perform_ptz caps fault profile distance speed
            CONTINUOUS_MOVE dur preset pan tilt zoom).1 →
        v.panTilt.isSome = (pan.isSome || tilt.isSome)
        ∧ v.zoom.isSome = zoom.isSome)
    ∧ (p.relative = true →
      callsOf (async_perform_ptz caps fault profile distance speed
          RELATIVE_MOVE dur preset pan tilt zoom).1
        = [relReqOf profile distance speed pan tilt zoom])
    ∧ (p.absolute = true →
      callsOf (async_perform_ptz caps fault profile distance speed
          ABSOLUTE_MOVE dur preset pan tilt zoom).1
        = [absReqOf profile distance speed pan tilt zoom]) := by
  refine ⟨?_, ?_, ?_⟩
  · intro hcont tk v hmem
    rw [perform_continuous_eq caps fault profile distance speed dur preset
      pan tilt zoom p hcap hp hcont] at hmem
    unfold issueCall at hmem
    have hv : v = velocityOf pan tilt zoom
        (distance * (PAN_FACTOR_get pan : ℚ))
        (distance * (TILT_FACTOR_get tilt : ℚ))
        (distance * (ZOOM_FACTOR_get zoom : ℚ)) := by
      cases hf : fault (cmReqOf profile distance pan tilt zoom)
      · rw [hf] at hmem
        cases dur with
        | none => simp [cmReqOf] at hmem; exact hmem.2
        | some d =>
          simp [issueCall, timedStopReq, cmReqOf] at hmem
          rcases hmem with ⟨h1, hv⟩ | hmem
          · exact hv
          · exfalso
            cases hs : fault (PTZReq.stop profile.token (some true) (some false)) <;>
              rw [hs] at hmem <;> simp at hmem
      · rw [hf] at hmem
        simp [cmReqOf] at hmem
        exact hmem.2
    subst hv
    constructor
    · unfold velocityOf
      cases hb : (pan.isSome || tilt.isSome) <;> simp [hb]
    · unfold velocityOf
      cases hb : zoom.isSome <;> simp [hb]
  · intro hrel
    rw [perform_relative_eq caps fault profile distance speed dur preset
      pan tilt zoom p hcap hp hrel]
    unfold issueCall
    cases hf : fault (relReqOf profile distance speed pan tilt zoom) <;> simp
  · intro habs
    rw [perform_absolute_eq caps fault profile distance speed dur preset
      pan tilt zoom p hcap hp habs]
    unfold issueCall
    cases hf : fault (absReqOf profile distance speed pan tilt zoom) <;> simp

/-- Witness for C10: zoom-only continuous move omits the PanTilt component;
relative move with no axis specified still sends a full (zero) payload. -/
theorem c10_witness :
    (∀ tk v, PTZReq.continuousMove tk v ∈
        callsOf (async_perform_ptz capsOn noFaults testProfileC 1 1
          CONTINUOUS_MOVE (some 1) none none none (some "ZOOM_IN")).1 →
      v.panTilt.isSome = false ∧ v.zoom.isSome = true)
    ∧ callsOf (async_perform_ptz capsOn noFaults testProfileC 1 1
        RELATIVE_MOVE (some 1) none none none none).1
      = [relReqOf testProfileC 1 1 none none none] :=
  have h := c10_axis_payload_inclusion capsOn noFaults testProfileC 1 1
    (some 1) none none none (some "ZOOM_IN")
    { continuous := true, relative := true, absolute := true, presets := some ["p1"] }
    rfl rfl
  have h2 := c10_axis_payload_inclusion capsOn noFaults testProfileC 1 1
    (some 1) none none none none
    { continuous := true, relative := true, absolute := true, presets := some ["p1"] }
    rfl rfl
  ⟨fun tk v hm => h.1 rfl tk v hm, h2.2.1 rfl⟩

/-! ## Claims about setup / discovery -/

/-- An environment in which every remote operation succeeds, the device
reports a null date/time body, and `GetProfiles` returns an empty list. -/
def envOkBase : SetupEnv :=
  { systemNowSeconds := 0
    xaddrs := NetRes.ok ()
    getSystemDateAndTime := NetRes.ok none
    getTimeForSet := NetRes.ok ()
    setTime := NetRes.ok ()
    getDeviceInformation := NetRes.ok
      { manufacturer := "Acme", model := "Cam1", firmwareVersion := "1.0",
        serialNumber := "SN1" }
    getNetworkInterfaces := NetRes.ok []
    ptzProbe := none
    getProfiles := NetRes.ok (some [])
    getPresets := fun _ => NetRes.ok [] }

/-- C5: the outcome of `async_setup` is determined by the class of the first
exception escaping discovery — a network-level `RequestError` yields
`return True` with the device marked unavailable, while a protocol-level
`Fault` yields `return False`. -/
theorem c5_setup_outcome_by_fault_class (env : SetupEnv) (s : DeviceState)
    (m : String) :
    (discoveryExn env = some (Exn.reqErr m) →
      (async_setup env s).2 = SetupResult.success
      ∧ (async_setup env s).1.available = false)
    ∧ (discoveryExn env = some (Exn.fault m) →
      (async_setup env s).2 = SetupResult.failure) := by
  unfold async_setup discoveryExn
  cases hx : env.xaddrs with
  | ok a =>
    cases hchk : (async_check_date_and_time env).escFault with
    | some mm => simp [NetRes.toExcept, setupHandle, hchk]
    | none =>
      cases hinfo : async_get_device_info env with
      | error e => cases e <;> simp [NetRes.toExcept, setupHandle, hchk, hinfo]
      | ok info =>
        cases hprof : async_get_profiles env (async_get_capabilities env) with
        | error e =>
          cases e <;> simp [NetRes.toExcept, setupHandle, hchk, hinfo, hprof]
        | ok profiles => simp [NetRes.toExcept, hchk, hinfo, hprof]
  | requestError mm => simp [NetRes.toExcept, setupHandle]
  | fault mm => simp [NetRes.toExcept, setupHandle]

/-- Witness for C5: a network timeout at `update_xaddrs` gives setup success
with the device unavailable; an authentication fault there gives setup
failure. -/
theorem c5_witness :
    (async_setup { envOkBase with xaddrs := NetRes.requestError "timeout" }
        initDeviceState).2 = SetupResult.success
    ∧ (async_setup { envOkBase with xaddrs := NetRes.requestError "timeout" }
        initDeviceState).1.available = false
    ∧ (async_setup { envOkBase with xaddrs := NetRes.fault "auth rejected" }
        initDeviceState).2 = SetupResult.failure :=
  have h1 := c5_setup_outcome_by_fault_class
    { envOkBase with xaddrs := NetRes.requestError "timeout" }
    initDeviceState "timeout"
  have h2 := c5_setup_outcome_by_fault_class
    { envOkBase with xaddrs := NetRes.fault "auth rejected" }
    initDeviceState "auth rejected"
  ⟨(h1.1 rfl).1, (h1.1 rfl).2, h2.2 rfl⟩

/-- C6: if the media-profile listing yields zero profiles, setup returns
false, even when the clock check, device-info fetch and capability
discovery all succeeded. -/
theorem c6_zero_profiles_setup_fails (env : SetupEnv) (s : DeviceState)
    (info : DeviceInfo)
    (hx : env.xaddrs = NetRes.ok ())
    (hchk : (async_check_date_and_time env).escFault = none)
    (hinfo : async_get_device_info env = Except.ok info)
    (hprof : async_get_profiles env (async_get_capabilities env) = Except.ok []) :
    (async_setup env s).2 = SetupResult.failure := by
  unfold async_setup
  rw [hx]
  simp [NetRes.toExcept, hchk, hinfo, hprof]

/-- Witness for C6: every discovery step succeeds but zero profiles come
back, and setup fails. -/
theorem c6_witness :
    (async_setup envOkBase initDeviceState).2 = SetupResult.failure :=
  c6_zero_profiles_setup_fails envOkBase initDeviceState
    { manufacturer := some "Acme", model := some "Cam1",
      fw_version := some "1.0", serial_number := some "SN1", mac := none }
    rfl rfl rfl rfl

/-- C7: when the device clock exceeds local time by more than 5 seconds,
exactly one `SetSystemDateAndTime` push is issued if the device's time
source is "Manual" (and the template fetch preceding the push succeeds),
and zero pushes are issued if the time source is externally synced. -/
theorem c7_clock_drift_pushes (env : SetupEnv) (dtv : DeviceTime) (c : DevCDate)
    (hget : env.getSystemDateAndTime = NetRes.ok (some dtv))
    (hc : resolveCDate dtv = some c)
    (hdrift : c.utcSeconds - env.systemNowSeconds > 5) :
    (dtv.dateTimeType = "Manual" → env.getTimeForSet = NetRes.ok () →
      (async_check_date_and_time env).pushes = 1)
    ∧ (dtv.dateTimeType ≠ "Manual" →
      (async_check_date_and_time env).pushes = 0) := by
  unfold async_check_date_and_time
  simp only [hget, hc]
  constructor
  · intro hm hset
    simp [hm, hset, hdrift]
    cases hst : env.setTime <;> simp [hst]
  · intro hm
    simp [hdrift, hm]

/-- Witness for C7: a device clock 10 seconds ahead with a manually-set time
source receives exactly one push; the same drift with an NTP time source
receives none. -/
theorem c7_witness :
    (async_check_date_and_time { envOkBase with
        getSystemDateAndTime := NetRes.ok (some
          { utcDateTime := some { utcSeconds := 10 }, localDateTime := none,
            dateTimeType := "Manual" }) }).pushes = 1
    ∧ (async_check_date_and_time { envOkBase with
        getSystemDateAndTime := NetRes.ok (some
          { utcDateTime := some { utcSeconds := 10 }, localDateTime := none,
            dateTimeType := "NTP" }) }).pushes = 0 :=
  have h1 := c7_clock_drift_pushes
    { envOkBase with getSystemDateAndTime := NetRes.ok (some
        { utcDateTime := some { utcSeconds := 10 }, localDateTime := none,
          dateTimeType := "Manual" }) }
    { utcDateTime := some { utcSeconds := 10 }, localDateTime := none,
      dateTimeType := "Manual" }
    { utcSeconds := 10 } rfl rfl (by norm_num [envOkBase])
  have h2 := c7_clock_drift_pushes
    { envOkBase with getSystemDateAndTime := NetRes.ok (some
        { utcDateTime := some { utcSeconds := 10 }, localDateTime := none,
          dateTimeType := "NTP" }) }
    { utcDateTime := some { utcSeconds := 10 }, localDateTime := none,
      dateTimeType := "NTP" }
    { utcSeconds := 10 } rfl rfl (by norm_num [envOkBase])
  ⟨h1.1 rfl rfl, h2.2 (by decide)⟩

/-- C8 counterexample: a `Fault` whose message does not contain
"not implemented" raised by the (best-effort) `GetNetworkInterfaces` MAC
lookup is re-raised, aborting `async_get_device_info` and making the
encompassing setup fail — contradicting the claim that every failure while
gathering optional information is swallowed. -/
theorem c8_counterexample :
    async_get_device_info { envOkBase with
        getNetworkInterfaces := NetRes.fault "Unauthorized" }
      = Except.error (Exn.fault "Unauthorized")
    ∧ (async_setup { envOkBase with
        getNetworkInterfaces := NetRes.fault "Unauthorized" }
        initDeviceState).2 = SetupResult.failure := by
  constructor <;> rfl

/-- C8 amended: the per-profile preset listing and the PTZ capability probe
swallow every fault/timeout and degrade to an empty preset list and
`ptz = false` respectively, never aborting discovery; the MAC-address
network-interface lookup, however, swallows only a `Fault` whose message
contains "not implemented" (degrading to an absent MAC) — any other fault
and any network-level error propagate and abort the device-info fetch. -/
theorem c8_amended_best_effort :
    (∀ (env : SetupEnv) (di : DeviceInfoRaw) (m : String),
      env.getDeviceInformation = NetRes.ok di →
      env.getNetworkInterfaces = NetRes.fault m →
      pyContains "not implemented" m = true →
      async_get_device_info env = Except.ok
        { manufacturer := some di.manufacturer, model := some di.model,
          fw_version := some di.firmwareVersion,
          serial_number := some di.serialNumber, mac := none })
    ∧ (∀ (env : SetupEnv) (di : DeviceInfoRaw) (m : String),
      env.getDeviceInformation = NetRes.ok di →
      env.getNetworkInterfaces = NetRes.fault m →
      pyContains "not implemented" m = false →
      async_get_device_info env = Except.error (Exn.fault m))
    ∧ (∀ (env : SetupEnv) (di : DeviceInfoRaw) (m : String),
      env.getDeviceInformation = NetRes.ok di →
      env.getNetworkInterfaces = NetRes.requestError m →
      async_get_device_info env = Except.error (Exn.reqErr m))
    ∧ (∀ (env : SetupEnv) (caps : Capabilities) (raws : List RawProfile),
      env.getProfiles = NetRes.ok (some raws) →
      async_get_profiles env caps
        = Except.ok (raws.enum.map fun kr => buildProfile env caps kr.1 kr.2))
    ∧ (∀ (env : SetupEnv) (caps : Capabilities) (k : Nat) (raw : RawProfile)
        (cfg : RawPTZConfig) (m : String),
      raw.ptzConfiguration = some cfg →
      caps.ptz = true →
      env.getPresets raw.token = NetRes.fault m →
      buildProfile env caps k raw
        = { index := k, token := raw.token, name := raw.name,
            ptz := some
              { continuous := cfg.defaultContinuousPanTiltVelocitySpace.isSome
                relative := cfg.defaultRelativePanTiltTranslationSpace.isSome
                absolute := cfg.defaultAbsolutePantTiltPositionSpace.isSome
                presets := some [] } })
    ∧ (∀ (env : SetupEnv) (e : String),
      env.ptzProbe = some e → async_get_capabilities env = { ptz := false }) := by
  refine ⟨?_, ?_, ?_, ?_, ?_, ?_⟩
  · intro env di m hdi hni hm
    unfold async_get_device_info
    simp [hdi, hni, hm]
  · intro env di m hdi hni hm
    unfold async_get_device_info
    simp [hdi, hni, hm]
  · intro env di m hdi hni
    unfold async_get_device_info
    simp [hdi, hni]
  · intro env caps raws hpr
    unfold async_get_profiles
    simp [hpr]
  · intro env caps k raw cfg m hcfg hcap hpre
    unfold buildProfile
    simp [hcfg, hcap, hpre]
  · intro env e hprobe
    unfold async_get_capabilities
    simp [hprobe]

/-- Witness for the amended C8 at concrete inputs: a "not implemented"
fault degrades to an absent MAC; an "Unauthorized" fault aborts; a timeout
aborts; preset faults degrade to an empty preset list without aborting
profile discovery; a failing PTZ probe degrades to `ptz = false`. -/
theorem c8_amended_witness :
    async_get_device_info { envOkBase with
        getNetworkInterfaces := NetRes.fault "GetNetworkInterfaces not implemented" }
      = Except.ok
        { manufacturer := some "Acme", model := some "Cam1",
          fw_version := some "1.0", serial_number := some "SN1", mac := none }
    ∧ async_get_device_info { envOkBase with
        getNetworkInterfaces := NetRes.fault "Sender not authorized" }
      = Except.error (Exn.fault "Sender not authorized")
    ∧ async_get_device_info { envOkBase with
        getNetworkInterfaces := NetRes.requestError "timed out" }
      = Except.error (Exn.reqErr "timed out")
    ∧ async_get_profiles { envOkBase with
        getProfiles := NetRes.ok (some
          [{ token := "profA", name := "main",
             ptzConfiguration := some
               { defaultContinuousPanTiltVelocitySpace := some "uri"
                 defaultRelativePanTiltTranslationSpace := none
                 defaultAbsolutePantTiltPositionSpace := none } }])
        getPresets := fun _ => NetRes.fault "no presets" }
        { ptz := true }
      = Except.ok
        [{ index := 0, token := "profA", name := "main",
           ptz := some
             { continuous := true, relative := false, absolute := false,
               presets := some [] } }]
    ∧ async_get_capabilities { envOkBase with ptzProbe := some "boom" }
      = { ptz := false } :=
  have h := c8_amended_best_effort
  have h4 := h.2.2.2.1 { envOkBase with
      getProfiles := NetRes.ok (some
        [{ token := "profA", name := "main",
           ptzConfiguration := some
             { defaultContinuousPanTiltVelocitySpace := some "uri"
               defaultRelativePanTiltTranslationSpace := none
               defaultAbsolutePantTiltPositionSpace := none } }])
      getPresets := fun _ => NetRes.fault "no presets" }
    { ptz := true }
    [{ token := "profA", name := "main",
       ptzConfiguration := some
         { defaultContinuousPanTiltVelocitySpace := some "uri"
           defaultRelativePanTiltTranslationSpace := none
           defaultAbsolutePantTiltPositionSpace := none } }]
    rfl
  ⟨h.1 { envOkBase with
      getNetworkInterfaces := NetRes.fault "GetNetworkInterfaces not implemented" }
      { manufacturer := "Acme", model := "Cam1", firmwareVersion := "1.0",
        serialNumber := "SN1" }
      "GetNetworkInterfaces not implemented" rfl rfl (by decide),
   h.2.1 { envOkBase with
      getNetworkInterfaces := NetRes.fault "Sender not authorized" }
      { manufacturer := "Acme", model := "Cam1", firmwareVersion := "1.0",
        serialNumber := "SN1" }
      "Sender not authorized" rfl rfl (by decide),
   h.2.2.1 { envOkBase with
      getNetworkInterfaces := NetRes.requestError "timed out" }
      { manufacturer := "Acme", model := "Cam1", firmwareVersion := "1.0",
        serialNumber := "SN1" }
      "timed out" rfl rfl,
   h4,
   h.2.2.2.2.2 { envOkBase with ptzProbe := some "boom" } "boom" rfl⟩

/-- C9 counterexample: calling teardown on a device whose `async_setup` was
never invoked raises `AttributeError`, because the `device` attribute is
only assigned inside `async_setup`; the claim that teardown is safe even
when setup never completed is false in that case. -/
theorem c9_counterexample :
    async_stop initDeviceState = Except.error "AttributeError" := rfl

/-- C9 amended: once `async_setup` has at least started — it assigns the
transport handle before any fallible step — teardown completes without
raising regardless of where setup failed, and it is idempotent: a second
teardown returns the same closed state. -/
theorem c9_amended_teardown_after_setup (env : SetupEnv) (s0 : DeviceState) :
    ∃ s2, async_stop (async_setup env s0).1 = Except.ok s2
      ∧ async_stop s2 = Except.ok s2 := by
  have hdev : ∃ c, (async_setup env s0).1.device = some c := by
    unfold async_setup
    cases hx : env.xaddrs with
    | ok a =>
      cases hchk : (async_check_date_and_time env).escFault with
      | some mm =>
        simp only [NetRes.toExcept, hchk, setupHandle]
        exact ⟨_, rfl⟩
      | none =>
        simp only [NetRes.toExcept, hchk]
        cases hinfo : async_get_device_info env with
        | error e =>
          cases e <;> simp only [hinfo, setupHandle] <;> exact ⟨_, rfl⟩
        | ok info =>
          simp only [hinfo]
          cases hprof : async_get_profiles env (async_get_capabilities env) with
          | error e =>
            cases e <;> simp only [hprof, setupHandle] <;> exact ⟨_, rfl⟩
          | ok profiles =>
            simp only [hprof]
            cases profiles with
            | nil => exact ⟨_, rfl⟩
            | cons aa ll => exact ⟨_, rfl⟩
    | requestError mm => exact ⟨_, rfl⟩
    | fault mm => exact ⟨_, rfl⟩
  obtain ⟨c, hc⟩ := hdev
  refine ⟨{ (async_setup env s0).1 with device := some (closeConn c) }, ?_, ?_⟩
  · unfold async_stop
    rw [hc]
  · rfl

end OnvifPtz
